import Mathlib

/-!
Verification development for the agentcyril backend core: the
retrieval-augmented context assembly and response-generation pipeline
(backend/app/embeddings.py, backend/app/routes/chatbot.py,
backend/app/main.py, backend/app/database.py, backend/app/models.py).

The Python source is shallowly embedded: pure computations become Lean
functions over lists and strings; collaborator calls (Supabase, ChromaDB,
OpenAI) are oracles supplied through environment records whose fields are
`Except PyErr` values (an `.error` models the call raising); Python
`try/except` becomes explicit matching on those values.  Python `sorted`
is modelled by an insertion sort, which agrees with it because both are
stable and a stable sort by a key is unique.
-/

namespace AgentCyril

/-- Python exception values relevant to the embedded control flow.
`httpException` models `fastapi.HTTPException(status_code, detail)`. -/
inductive PyErr where
  | typeError
  | attributeError
  | nameError
  | httpException (status : Nat) (detail : String)
  | runtimeError (msg : String)
  deriving DecidableEq, Repr

/-! Section: Python string primitives

Embedded structurally over `List Char` so that every definition evaluates
inside the kernel.  The inputs of this code base are ASCII, so the ASCII
case-lowering below agrees with Python `str.lower()` on them. -/

/-- Python `str.lower()` on one ASCII character. -/
def pyLowerChar (c : Char) : Char :=
  if 65 ≤ c.toNat ∧ c.toNat ≤ 90 then Char.ofNat (c.toNat + 32) else c

/-- Python `str.lower()`. -/
def pyLower (s : String) : String := String.mk (s.toList.map pyLowerChar)

/-- Python `str.strip()`: drop leading and trailing whitespace. -/
def pyStrip (s : String) : String :=
  String.mk (((s.toList.dropWhile Char.isWhitespace).reverse.dropWhile
    Char.isWhitespace).reverse)

/-- Helper of `pySplitComma`: accumulate the current piece (reversed). -/
def splitCommaAux : List Char → List Char → List (List Char)
  | [], acc => [acc.reverse]
  | c :: rest, acc =>
    if c = ',' then acc.reverse :: splitCommaAux rest []
    else splitCommaAux rest (c :: acc)

/-- Python `s.split(",")` (note `"".split(",") == [""]`). -/
def pySplitComma (s : String) : List String :=
  (splitCommaAux s.toList []).map String.mk

/-- Python slicing `s[n:]` by characters. -/
def strDrop (s : String) (n : Nat) : String := String.mk (s.toList.drop n)

/-- Python slicing `s[:n]` by characters. -/
def strTake (s : String) (n : Nat) : String := String.mk (s.toList.take n)

/-- Python `s.startswith(p)`. -/
def strStartsWith (s p : String) : Bool := p.toList.isPrefixOf s.toList

/-- Helper of `strReplace`: fuel-bounded left-to-right replacement of the
nonempty pattern `p :: ps`.  The fuel starts at the text length, which
bounds the number of steps, so the fuel never runs out. -/
def repAux (p : Char) (ps repl : List Char) : Nat → List Char → List Char
  | 0, l => l
  | _ + 1, [] => []
  | fuel + 1, c :: rest =>
    if (p :: ps).isPrefixOf (c :: rest) then
      repl ++ repAux p ps repl fuel (rest.drop ps.length)
    else c :: repAux p ps repl fuel rest

/-- Python `s.replace(pat, repl)`: every non-overlapping occurrence,
left to right (an empty pattern is left alone; the source only replaces
nonempty literals). -/
def strReplace (s pat repl : String) : String :=
  match pat.toList with
  | [] => s
  | p :: ps => String.mk (repAux p ps repl.toList s.toList.length s.toList)

/-! Section: A stable sort, modelling Python `sorted(..., key=...)`. -/

/-- Insert `x` into `l` before the first element whose key is not
smaller, so that `x` lands before elements of equal key (stability). -/
def sInsert {α κ : Type} [LinearOrder κ] (key : α → κ) (x : α) : List α → List α
  | [] => [x]
  | y :: ys => if key y < key x then y :: sInsert key x ys else x :: y :: ys

/-- Stable insertion sort by `key`, ascending.  Models Python
`sorted(l, key=key)` (Timsort), which is also stable. -/
def sSort {α κ : Type} [LinearOrder κ] (key : α → κ) : List α → List α
  | [] => []
  | x :: xs => sInsert key x (sSort key xs)

/-- Entries with key equal to `d`, in order: the witness of stability. -/
def filterKey {α κ : Type} [LinearOrder κ] (key : α → κ) (d : κ) (l : List α) : List α :=
  l.filter (fun a => decide (key a = d))

/-! Section: embeddings.py, `query_vector_db` (lines 480-760)

The ChromaDB collection is an external collaborator: each of its calls made
by `query_vector_db` is one oracle field of `QueryEnv`.  `count` models
`collection.count()`; the `…Probe` fields model the `collection.get(where=…,
limit=1)` existence probes (`.ok true` = nonempty ids); the `…Query` fields
model `collection.query(query_texts=[query], …)` with the respective filter,
already flattened to a list of (document, metadata, distance) triples.
Distances are embedded as rationals: only their order matters here. -/

/-- The metadata fields of a vector-store entry that `query_vector_db` and
`generate_ai_response` read. -/
structure RMeta where
  category : String
  subcategory : String
  userId : Option String
  deriving DecidableEq, Repr

/-- One (document, metadata, distance) triple of a Chroma query result. -/
structure RetEntry where
  text : String
  meta : RMeta
  dist : ℚ
  deriving DecidableEq, Repr

/-- The collaborator calls `query_vector_db` can make, as oracles. -/
structure QueryEnv where
  count : Except PyErr Nat
  docProbe : Except PyErr Bool
  docQuery : Except PyErr (List RetEntry)
  profProbe : Except PyErr Bool
  profQuery : Except PyErr (List RetEntry)
  projProbe : Except PyErr Bool
  projQuery : Except PyErr (List RetEntry)
  convProbe : Except PyErr Bool
  convQuery : Except PyErr (List RetEntry)
  genQuery : Except PyErr (List RetEntry)

/-- One category-scoped block (document/profile/project, lines 517-644):
probe with limit 1, query only when the probe found ids, and the whole block
is inside its own `try/except` that turns any exception into no results. -/
def scopedBlock (probe : Except PyErr Bool) (q : Except PyErr (List RetEntry)) :
    List RetEntry :=
  match probe with
  | .error _ => []
  | .ok false => []
  | .ok true =>
    match q with
    | .error _ => []
    | .ok l => l

/-- The conversation block (lines 648-684): the probe result only feeds a
log line, the query runs regardless, but a raised probe still skips the
whole block through the surrounding `except`. -/
def convBlockRun (probe : Except PyErr Bool) (q : Except PyErr (List RetEntry)) :
    List RetEntry :=
  match probe with
  | .error _ => []
  | .ok _ =>
    match q with
    | .error _ => []
    | .ok l => l

/-- The unscoped fallback query (lines 687-711), post-filtered by
`user_id` when one was given (`if not user_id or meta.get("user_id") ==
user_id`). -/
def generalBlock (q : Except PyErr (List RetEntry)) (userId : Option String) :
    List RetEntry :=
  match q with
  | .error _ => []
  | .ok l => l.filter (fun e => decide (userId = none ∨ e.meta.userId = userId))

/-- The merged per-category results in the order the code appends them:
document, profile, project, conversation (lines 517-684).  The three owner
blocks run only under `if user_id:`, the conversation block only under
`if visitor_id and include_conversation:`. -/
def mergedResults (env : QueryEnv) (userId visitorId : Option String)
    (includeConv : Bool) : List RetEntry :=
  (if userId.isSome then scopedBlock env.docProbe env.docQuery else []) ++
  (if userId.isSome then scopedBlock env.profProbe env.profQuery else []) ++
  (if userId.isSome then scopedBlock env.projProbe env.projQuery else []) ++
  (if visitorId.isSome && includeConv then convBlockRun env.convProbe env.convQuery else [])

/-- The sort key of line 726: `key=lambda x: x[2]`, the distance. -/
def distKey (e : RetEntry) : ℚ := e.dist

/-- The body of `query_vector_db` inside its outer `try`.  An empty
collection returns the empty result early (lines 498-504).  Because the
assignment of `query_results` (line 732) is indented under `if
combined_docs:`, an empty merge leaves `query_results` unassigned and line
738 raises `NameError`, which the outer `except` then swallows. -/
def queryVectorDbBody (env : QueryEnv) (userId visitorId : Option String)
    (includeConv : Bool) : Except PyErr (List RetEntry) :=
  match env.count with
  | .error e => .error e
  | .ok n =>
    if n = 0 then .ok []
    else
      let combined0 := mergedResults env userId visitorId includeConv
      let combined := if combined0.isEmpty then generalBlock env.genQuery userId
        else combined0
      if combined.isEmpty then .error .nameError
      else .ok (sSort distKey combined)

/-- `query_vector_db`: the outer `try/except` (lines 485, 751-760) turns any
escaped exception into the empty result structure. -/
def queryVectorDb (env : QueryEnv) (userId visitorId : Option String)
    (includeConv : Bool) : Except PyErr (List RetEntry) :=
  match queryVectorDbBody env userId visitorId includeConv with
  | .ok r => .ok r
  | .error _ => .ok []

/-! Section: embeddings.py, indexing (lines 58-478)

`add_profile_to_vector_db`, `add_projects_to_vector_db` and
`add_document_to_vector_db` are embedded as the sequence of vector-store
operations (`delete(where=…)` / `add(…)`) each call issues, plus the store
semantics `applyOp`.  Entry ids and metadata are built exactly as the
f-strings and metadata dicts of the source build them (Python renders a
`None` user_id inside an f-string as the text "None"). -/

/-- Python truthiness of an optional string: `None` and `""` are falsy. -/
def tstr : Option String → Bool
  | none => false
  | some s => !(s == "")

/-- How a Python f-string renders an optional string (None prints as "None"). -/
def ostr : Option String → String
  | none => "None"
  | some s => s

/-- Python `a or b` on optional strings. -/
def pyOr (a b : Option String) : Option String := if tstr a then a else b

/-- One vector-store entry: id plus the metadata fields the source writes. -/
structure VEntry where
  id : String
  category : String
  subcategory : String
  userId : Option String
  documentId : Option String := none
  projectId : Option String := none
  projectCategory : Option String := none
  docTitle : Option String := none
  chunkIndex : Option Nat := none
  totalChunks : Option Nat := none
  text : String
  deriving DecidableEq, Repr

/-- A vector-store operation: every delete the indexing code issues uses the
filter shape `{category $eq c} AND {user_id $eq u}`. -/
inductive VOp where
  | del (category : String) (userId : Option String)
  | add (entries : List VEntry)
  deriving DecidableEq, Repr

def VOp.isDel : VOp → Bool
  | .del _ _ => true
  | .add _ => false

/-- The effect of a delete with filter `{category $eq c} AND {user_id $eq u}`:
keep the entries that do not match. -/
def filtDel (c : String) (u : Option String) (s : List VEntry) : List VEntry :=
  s.filter (fun e => !(decide (e.category = c) && decide (e.userId = u)))

/-- Store semantics: delete removes every entry matching the filter, add
appends the new entries. -/
def applyOp (s : List VEntry) : VOp → List VEntry
  | .del c u => filtDel c u s
  | .add es => s ++ es

def applyOps (s : List VEntry) (ops : List VOp) : List VEntry :=
  ops.foldl applyOp s

/-! Lemmas: Chunking (lines 269-291 and 426-449)

`for i in range(0, len(text), chunk_size - overlap): chunk = text[i:i+1000]`
with `chunk_size = 1000`, `overlap = 100`, so the stride is 900. -/

/-- Number of chunks: how many indices `range(0, L, 900)` yields. -/
def numChunks (len : Nat) : Nat := (len + 899) / 900

/-- Python `range(0, stop, step)` for positive step. -/
def pyRange0 (stop step : Nat) : List Nat :=
  (List.range ((stop + step - 1) / step)).map (fun k => k * step)

/-- The chunk list: slices `text[i:i+1000]` for `i in range(0, len, 900)`,
keeping only nonempty chunks (the `if chunk:` guard of the source; it never
fires because every start index is below the length). -/
def pyChunks (t : List Char) : List (List Char) :=
  ((pyRange0 t.length 900).map (fun i => (t.drop i).take 1000)).filter
    (fun c => !c.isEmpty)

/-- Length of chunk `k` of a text of length `len`. -/
def chunkLen (len k : Nat) : Nat := min 1000 (len - k * 900)

/-- How many character positions chunks `k` and `k+1` share: chunk `k`
covers `[900k, min(900k+1000, len))` and chunk `k+1` starts at `900(k+1)`. -/
def overlapCount (len k : Nat) : Nat := min (k * 900 + 1000) len - (k + 1) * 900

/-! Lemmas: Project indexing (`add_projects_to_vector_db`, lines 159-316) -/

/-- One project as `add_projects_to_vector_db` reads it.  `contentText` is
the derived plain text of lines 236-264 (the `content_html` of the project
with HTML tags stripped, or the parsed Lexical html, or the raw `content`
as fallback); it is `""` when the project has no content, and the
delete/insert structure and ids under verification do not depend on how it
was derived. -/
structure ProjSrc where
  id : Option String := none
  title : Option String := none
  description : Option String := none
  details : Option String := none
  category : String := ""
  contentText : String := ""
  deriving Repr

/-- The content entries of one project (lines 267-302). -/
def projectContentEntries (pid : String) (pcat : String) (u : Option String)
    (txt : String) : List VEntry :=
  if txt = "" then []
  else if txt.length > 1000 then
    let cs := pyChunks txt.toList
    cs.enum.map (fun ic =>
      { id := "project_content_" ++ pid ++ "_" ++ toString ic.1 ++ "_" ++ ostr u,
        category := "project", subcategory := "content", userId := u,
        projectId := some pid, projectCategory := some pcat,
        chunkIndex := some ic.1, totalChunks := some cs.length,
        text := String.mk ic.2 })
  else
    [{ id := "project_content_" ++ pid ++ "_" ++ ostr u,
       category := "project", subcategory := "content", userId := u,
       projectId := some pid, projectCategory := some pcat, text := txt }]

/-- All entries of one project (lines 195-302): skipped entirely without an
id; title, description, details when truthy; then the content entries. -/
def projectEntries (pr : ProjSrc) (u : Option String) : List VEntry :=
  if !(tstr pr.id) then []
  else
    let pid := ostr pr.id
    (if tstr pr.title then
      [{ id := "project_title_" ++ pid ++ "_" ++ ostr u, category := "project",
         subcategory := "title", userId := u, projectId := some pid,
         projectCategory := some pr.category, text := ostr pr.title }] else []) ++
    (if tstr pr.description then
      [{ id := "project_description_" ++ pid ++ "_" ++ ostr u, category := "project",
         subcategory := "description", userId := u, projectId := some pid,
         projectCategory := some pr.category, text := ostr pr.description }] else []) ++
    (if tstr pr.details then
      [{ id := "project_details_" ++ pid ++ "_" ++ ostr u, category := "project",
         subcategory := "details", userId := u, projectId := some pid,
         projectCategory := some pr.category, text := ostr pr.details }] else []) ++
    projectContentEntries pid pr.category u pr.contentText

/-- `add_projects_to_vector_db`: an empty project list returns before any
store call (lines 163-165); otherwise it deletes every `{category:
"project", user_id}` entry (lines 180-185) and then adds the fresh entries
if any were built (lines 305-310). -/
def addProjectsOps (l : List ProjSrc) (u : Option String) : List VOp :=
  if l.isEmpty then []
  else
    let es := (l.map (fun pr => projectEntries pr u)).flatten
    VOp.del "project" u :: (if es.isEmpty then [] else [VOp.add es])

/-! Lemmas: Profile indexing (`add_profile_to_vector_db`, lines 58-157) -/

/-- A profile row as the indexer reads it (field presence and truthiness is
what drives the code, so every field is optional). -/
structure ProfileSrc where
  userId : Option String := none
  name : Option String := none
  location : Option String := none
  bio : Option String := none
  skills : Option String := none
  experience : Option String := none
  projects : Option String := none
  interests : Option String := none
  projectList : List ProjSrc := []
  deriving Repr

/-- `effective_user_id = user_id or profile_data.get("user_id")`, then
`"default"` when still falsy (lines 75-79). -/
def effUserId (p : ProfileSrc) (userId : Option String) : String :=
  let e := pyOr userId p.userId
  if tstr e then e.getD "" else "default"

/-- One optional profile field entry (lines 100-140): id `sub_eff`. -/
def profileFieldEntry (sub : String) (v : Option String) (eff : String) : List VEntry :=
  if tstr v then
    [{ id := sub ++ "_" ++ eff, category := "profile", subcategory := sub,
       userId := some eff, text := ostr v }]
  else []

/-- The profile entries in insertion order: name, location, bio, skills,
experience, legacy projects text, interests. -/
def profileEntries (p : ProfileSrc) (eff : String) : List VEntry :=
  profileFieldEntry "name" p.name eff ++
  profileFieldEntry "location" p.location eff ++
  profileFieldEntry "bio" p.bio eff ++
  profileFieldEntry "skills" p.skills eff ++
  profileFieldEntry "experience" p.experience eff ++
  profileFieldEntry "projects" p.projects eff ++
  profileFieldEntry "interests" p.interests eff

/-- `add_profile_to_vector_db`: delete `{category: "profile", user_id:
eff}` (lines 84-90), add the fresh profile entries if any (lines 143-148),
then index `project_list` through `add_projects_to_vector_db` with the same
effective user id (line 152). -/
def addProfileOps (p : ProfileSrc) (userId : Option String) : List VOp :=
  let eff := effUserId p userId
  let es := profileEntries p eff
  VOp.del "profile" (some eff) ::
    ((if es.isEmpty then [] else [VOp.add es]) ++
      addProjectsOps p.projectList (some eff))

/-! Lemmas: Document indexing (`add_document_to_vector_db`, lines 367-478) -/

/-- A document as the indexer reads it.  `freshId` stands for the
`uuid.uuid4()` drawn at line 386 when the document carries no id. -/
structure DocData where
  id : Option String := none
  freshId : String := ""
  title : Option String := none
  description : Option String := none
  extractedText : String := ""
  deriving Repr

/-- The content entries of a document (lines 425-460). -/
def docContentEntries (docId title : String) (txt : String) (u : String) :
    List VEntry :=
  if txt.length > 1000 then
    let cs := pyChunks txt.toList
    cs.enum.map (fun ic =>
      { id := "document_content_" ++ docId ++ "_" ++ toString ic.1 ++ "_" ++ u,
        category := "document", subcategory := "content", userId := some u,
        documentId := some docId, docTitle := some title,
        chunkIndex := some ic.1, totalChunks := some cs.length,
        text := String.mk ic.2 })
  else
    [{ id := "document_content_" ++ docId ++ "_" ++ u,
       category := "document", subcategory := "content", userId := some u,
       documentId := some docId, docTitle := some title, text := txt }]

/-- `add_document_to_vector_db`: note there is NO delete — the function only
builds documents/metadatas/ids and calls `collection.add` (lines 398-472).
A document without extracted text returns `False` before any store call
(lines 389-392). -/
def addDocumentOps (d : DocData) (userId : String) : List VOp :=
  let docId := if tstr d.id then ostr d.id else d.freshId
  if d.extractedText = "" then []
  else
    let title := d.title.getD "Untitled Document"
    let titleEntry : VEntry :=
      { id := "document_title_" ++ docId ++ "_" ++ userId, category := "document",
        subcategory := "title", userId := some userId, documentId := some docId,
        text := "Document Title: " ++ title }
    let descEntries : List VEntry :=
      if tstr d.description then
        [{ id := "document_description_" ++ docId ++ "_" ++ userId,
           category := "document", subcategory := "description",
           userId := some userId, documentId := some docId,
           text := "Document Description: " ++ ostr d.description }]
      else []
    [VOp.add (titleEntry :: (descEntries ++
      docContentEntries docId title d.extractedText userId))]

/-! Section: embeddings.py, `format_conversation_history` (lines 762-774) and the
history re-sort of routes/chatbot.py (lines 98-108) -/

/-- One chat-history row as `get_chat_history` returns it (database.py
lines 654-668): every row carries both `created_at` and `timestamp`. -/
structure HistItem where
  message : String := ""
  response : String := ""
  sender : String := "user"
  createdAt : String := ""
  timestamp : String := ""
  deriving DecidableEq, Repr

/-- The sort key of routes/chatbot.py line 102:
`x.get("created_at", "") or x.get("timestamp", "")`. -/
def histKey (m : HistItem) : String :=
  if m.createdAt = "" then m.timestamp else m.createdAt

/-- Lines 99-108: re-sort ascending (`reverse=False`, oldest first) when the
history is nonempty, else use the empty list. -/
def chatbotSortHistory (h : List HistItem) : List HistItem :=
  if h.isEmpty then [] else sSort histKey h

/-- `format_conversation_history`: the explicit empty marker, else one line
per row joined by newlines. -/
def formatConversationHistory (h : List HistItem) : String :=
  if h.isEmpty then "No previous conversation"
  else
    String.intercalate "\n" (h.map (fun m =>
      if m.sender == "user" then "User: " ++ m.message
      else "Assistant: " ++ m.response))

/-! Section: embeddings.py, `generate_ai_response` (lines 776-950) -/

/-- The profile fields `generate_ai_response` and the meeting pre-check
read, each optional as in the profile dict. -/
structure PromptProfile where
  name : Option String := none
  bio : Option String := none
  skills : Option String := none
  experience : Option String := none
  interests : Option String := none
  calendlyLink : Option String := none
  meetingRules : Option String := none
  deriving Repr

/-- Python `dict.get(key, default)`: the default only replaces a missing
key (an empty string present in the dict is returned as is). -/
def pget (o : Option String) (dflt : String) : String := o.getD dflt

/-- Formatting of one retrieval entry for the prompt (lines 805-823),
including the title-stripping and page-marker cleanup of document content. -/
def fmtCtxEntry (doc : String) (meta : RMeta) : String :=
  if meta.category == "document" then
    if meta.subcategory == "title" then "Document Title: " ++ doc
    else if meta.subcategory == "description" then "Document Description: " ++ doc
    else if meta.subcategory == "content" then
      let d1 := if strStartsWith doc "Document Title:" then strDrop doc 15 else doc
      let d2 := strReplace (strReplace d1 "\n--- Page" "\n") "---\n" ""
      "Content: " ++ d2
    else meta.subcategory ++ ": " ++ doc
  else meta.subcategory ++ ": " ++ doc

/-- The four named context buckets (line 779). -/
structure CtxSections where
  profile : List String := []
  project : List String := []
  document : List String := []
  conversation : List String := []
  deriving DecidableEq, Repr

/-- One step of the grouping loop (lines 796-829): an entry of an unknown
category is appended to the profile bucket. -/
def ctxPush (s : CtxSections) (e : RetEntry) : CtxSections :=
  let entry := fmtCtxEntry e.text e.meta
  if e.meta.category == "document" then { s with document := s.document ++ [entry] }
  else if e.meta.category == "project" then { s with project := s.project ++ [entry] }
  else if e.meta.category == "profile" then { s with profile := s.profile ++ [entry] }
  else if e.meta.category == "conversation" then
    { s with conversation := s.conversation ++ [entry] }
  else { s with profile := s.profile ++ [entry] }

def collectSections (rs : List RetEntry) : CtxSections :=
  rs.foldl ctxPush {}

/-- The per-section caps of lines 834-845: document 5, project 3,
profile 3, conversation 2; `entries[:max]` keeps the front of each list. -/
def limitSections (s : CtxSections) : CtxSections :=
  { profile := s.profile.take 3, project := s.project.take 3,
    document := s.document.take 5, conversation := s.conversation.take 2 }

/-- One rendered section (lines 851-872): nothing when empty, else a
heading line and one "- entry" line per entry. -/
def sectionText (hdr : String) (es : List String) : String :=
  if es.isEmpty then ""
  else "\n" ++ hdr ++ ":\n" ++ String.join (es.map (fun e => "- " ++ e ++ "\n"))

/-- The assembled context text, sections in the fixed order of the source:
document, project, conversation, profile. -/
def contextText (s : CtxSections) : String :=
  sectionText "Knowledge Base Information" s.document ++
  sectionText "Project Information" s.project ++
  sectionText "Relevant Previous Conversations" s.conversation ++
  sectionText "Additional Profile Information" s.profile

/-- `doc_instructions` (lines 878-887). -/
def docInstructions (hasDoc : Bool) : String :=
  if hasDoc then
    "\n7. When asked about medical, technical or specialized knowledge, use the information from my Knowledge Base as if it were part of your own expertise.\n8. Incorporate document content seamlessly into your responses without specifically mentioning that it came from documents.\n"
  else
    "\n7. If asked about documents or specific knowledge not in your profile, you should answer based only on the information provided in your profile.\n"

/-- The system prompt f-string (lines 890-916), with every interpolation
spelled out as concatenation.  It ends with the rendered conversation
history. -/
def systemPrompt (p : PromptProfile) (ctx : String) (hasDoc : Bool)
    (hist : List HistItem) : String :=
  let name := pget p.name "AI Assistant"
  "You are " ++ name ++ "'s personal AI clone. You should embody " ++ name ++
  "'s personality, knowledge, and experiences based on the following information:\n\nProfile Information:\n- Name: " ++
  name ++ "\n- Bio: " ++ pget p.bio "Not provided" ++
  "\n- Skills: " ++ pget p.skills "Not provided" ++
  "\n- Experience: " ++ pget p.experience "Not provided" ++
  "\n- Interests: " ++ pget p.interests "Not provided" ++
  "\n" ++ ctx ++
  "\n\nMeeting Scheduling:\n- Calendly Link: " ++ pget p.calendlyLink "Not configured" ++
  "\n- Meeting Rules: " ++ pget p.meetingRules "Not configured" ++
  "\n\nImportant Instructions:\n1. Always respond as if you are " ++ name ++
  ", using first-person pronouns (\"I\", \"my\", \"me\").\n2. Draw from the provided profile information and context to maintain authenticity.\n3. If asked about personal experiences, skills, or projects, refer to the information provided above.\n4. If asked about something not covered in the profile data, politely explain that you can only speak about the experiences and knowledge shared in your profile.\n5. Maintain a professional but conversational tone that matches " ++
  name ++
  "'s background and expertise.\n6. For meeting requests:\n   - If a Calendly link is configured and the request matches the meeting rules, provide the link\n   - If a Calendly link is configured but the request doesn't match the rules, explain the meeting policy\n   - If no Calendly link is configured, explain that online scheduling is not available" ++
  docInstructions hasDoc ++
  "\n\nRecent conversation history:\n" ++ formatConversationHistory hist

/-- The prompt `generate_ai_response` assembles from its inputs. -/
def generateSystemPrompt (p : PromptProfile) (rs : List RetEntry)
    (hist : List HistItem) : String :=
  systemPrompt p (contextText (limitSections (collectSections rs)))
    (rs.any (fun e => e.meta.category == "document")) hist

/-! Lemmas: The LLM error taxonomy of lines 921-946

The openai Python SDK v1 class hierarchy (openai/_exceptions.py) gives the
`except` clauses of the source their meaning: `APIError` derives from
`OpenAIError` (an `Exception`), and `APIStatusError`, `APIConnectionError`
(with `APITimeoutError` below it), `RateLimitError` and
`AuthenticationError` all derive from `APIError` (the latter two through
`APIStatusError`).  The source imports the v1 surface
(`openai.chat.completions.create`, `openai.embeddings.create`). -/

inductive ExcClass where
  | exceptionCls
  | openAIError
  | apiError
  | apiStatusError
  | apiConnectionError
  | apiTimeoutError
  | rateLimitError
  | authenticationError
  | otherError
  deriving DecidableEq, Repr

/-- The class and its base classes, nearest first. -/
def classChain : ExcClass → List ExcClass
  | .exceptionCls => [.exceptionCls]
  | .openAIError => [.openAIError, .exceptionCls]
  | .apiError => [.apiError, .openAIError, .exceptionCls]
  | .apiStatusError => [.apiStatusError, .apiError, .openAIError, .exceptionCls]
  | .apiConnectionError => [.apiConnectionError, .apiError, .openAIError, .exceptionCls]
  | .apiTimeoutError =>
    [.apiTimeoutError, .apiConnectionError, .apiError, .openAIError, .exceptionCls]
  | .rateLimitError =>
    [.rateLimitError, .apiStatusError, .apiError, .openAIError, .exceptionCls]
  | .authenticationError =>
    [.authenticationError, .apiStatusError, .apiError, .openAIError, .exceptionCls]
  | .otherError => [.otherError, .exceptionCls]

/-- Python `isinstance`/`except` matching: an instance of `c` is caught by a
clause for `d` iff `d` is `c` or a base of `c`. -/
def isInstanceOf (c d : ExcClass) : Bool := (classChain c).contains d

/-- Line 937: the `except openai.APIError` fallback text. -/
def kbMsg (name : String) : String :=
  "I apologize, but I'm having trouble accessing " ++ name ++
  "'s knowledge base at the moment. Please try again later."

/-- Line 940: the `except openai.APIConnectionError` fallback text. -/
def connMsg (name : String) : String :=
  "I apologize, but I'm having trouble connecting to " ++ name ++
  "'s knowledge base. Please check your internet connection and try again."

/-- Line 943: the `except openai.RateLimitError` fallback text. -/
def demandMsg (name : String) : String :=
  "I apologize, but " ++ name ++
  "'s AI clone is experiencing high demand. Please try again in a few moments."

/-- Line 946: the generic `except Exception` fallback text. -/
def genericMsg (name : String) : String :=
  "I apologize, but I'm having trouble processing your request as " ++ name ++
  "'s AI clone. Please try again later."

/-- The inner `try/except` chain around the LLM call (lines 921-946): the
clauses are tried in source order against the raised class. -/
def generateFromLLM (name : String) (llm : Except ExcClass String) :
    Except ExcClass String :=
  match llm with
  | .ok text => .ok text
  | .error e =>
    if isInstanceOf e .apiError then .ok (kbMsg name)
    else if isInstanceOf e .apiConnectionError then .ok (connMsg name)
    else if isInstanceOf e .rateLimitError then .ok (demandMsg name)
    else if isInstanceOf e .exceptionCls then .ok (genericMsg name)
    else .error e

/-! Section: Call semantics of `generate_ai_response` at its two call sites

`generate_ai_response` is `async def generate_ai_response(message,
search_results, profile_data, chat_history, target_user_id=None)`
(embeddings.py line 776).  Calling a Python function with a keyword
argument that is not among its parameters raises `TypeError` at the call;
calling an async function with valid arguments returns a coroutine object
without running the body. -/

def generateAiResponseParams : List String :=
  ["message", "search_results", "profile_data", "chat_history", "target_user_id"]

/-- Whether every keyword argument names a parameter. -/
def callKwargsOk (params kwargs : List String) : Bool :=
  kwargs.all (fun k => params.contains k)

/-- A Python value an expression of the handlers can hold: a string or the
coroutine object of a non-awaited async call. -/
inductive PyValue where
  | str (s : String)
  | coroutine
  deriving DecidableEq, Repr

/-- Calling the async `generate_ai_response` with the given keyword
arguments. -/
def callAsyncGenerate (kwargs : List String) : Except PyErr PyValue :=
  if callKwargsOk generateAiResponseParams kwargs then .ok .coroutine
  else .error .typeError

/-- routes/chatbot.py lines 112-117 and 188-193: both call sites pass
`query=`, `search_results=`, `profile_data=`, `chat_history=`. -/
def chatbotGenerateCall : Except PyErr PyValue :=
  callAsyncGenerate ["query", "search_results", "profile_data", "chat_history"]

/-- main.py lines 389-394: the call passes `message=` and the rest, without
`await`. -/
def mainGenerateCall : Except PyErr PyValue :=
  callAsyncGenerate ["message", "search_results", "profile_data", "chat_history"]

/-- `value[:50]`: slicing a string takes its first 50 characters; a
coroutine object is not subscriptable, so slicing it raises `TypeError`. -/
def pySlice50 : PyValue → Except PyErr PyValue
  | .str s => .ok (.str (strTake s 50))
  | .coroutine => .error .typeError

/-- main.py lines 389-396: bind the un-awaited call result, then slice it
inside the log f-string `ai_response[:50]`. -/
def mainGenerationStep : Except PyErr PyValue :=
  match mainGenerateCall with
  | .error e => .error e
  | .ok v => pySlice50 v

/-! Section: routes/chatbot.py, the `POST /chat` handler (lines 17-226) -/

/-- The request model `models.ChatRequest` (app/models.py lines 6-13). -/
structure ChatReq where
  message : String
  visitorId : String
  visitorName : Option String := none
  chatbotId : Option String := none
  deriving Repr

/-- A chatbots-table row as the handler reads it. -/
structure ChatbotRow where
  id : String
  userId : Option String := none
  isPublic : Bool := true
  deriving Repr

/-- The handler's response model `models.ChatResponse` (query_time_ms is
not modelled beyond a placeholder). -/
structure ChatResp where
  response : String
  queryTimeMs : Nat
  deriving DecidableEq, Repr

/-- The collaborator calls of the handler, as oracles.  `get_profile_data`,
`log_chat_message`, `get_chat_history` and `add_conversation_to_vector_db`
wrap their own bodies in `try/except` in database.py/embeddings.py, but the
embedding stays general and lets any of them raise. -/
structure ChatbotEnv where
  lookupById : Except PyErr (Option ChatbotRow)
  lookupDefault : Except PyErr (Option ChatbotRow)
  profile : Except PyErr (Option PromptProfile)
  search : Except PyErr (List RetEntry)
  history : Except PyErr (List HistItem)
  recoveryProfile : Except PyErr (Option PromptProfile)
  recoveryLog : Except PyErr Bool

/-- Line 40: the canned reply to an empty message. -/
def emptyMsgResponse : String :=
  "I didn't receive a message. Could you please try again?"

/-- Line 183: the canned reply the recovery path starts from. -/
def recoveryCanned : String :=
  "I'm sorry, I encountered an error processing your request. Please try again."

/-- Line 122: the fallback for a blank generation result. -/
def blankAiFallback : String :=
  "I apologize, but I couldn't formulate a proper response. Could we try a different question?"

/-- Lines 44-65: resolve the chatbot.  With a `chatbot_id` the row is looked
up and a missing row raises `HTTPException(404, "Chatbot not found")` (line
52); without one the default chatbot is used and a missing default raises
`HTTPException(404, "No chatbot found")` (line 65).  `inl` carries the
raised exception; `owner_user_id` is still `None` at both raise sites. -/
def resolveChatbot (env : ChatbotEnv) (req : ChatReq) : PyErr ⊕ ChatbotRow :=
  match req.chatbotId with
  | some _ =>
    match env.lookupById with
    | .error e => .inl e
    | .ok none => .inl (.httpException 404 "Chatbot not found")
    | .ok (some cb) => .inr cb
  | none =>
    match env.lookupDefault with
    | .error e => .inl e
    | .ok none => .inl (.httpException 404 "No chatbot found")
    | .ok (some cb) => .inr cb

/-- Lines 67-164, after the chatbot resolved: profile (only fetched for a
truthy owner), retrieval, history plus its re-sort, then the
`generate_ai_response(query=…)` call.  The persistence steps after the
generation never run because the call raises `TypeError`; they are embedded
for the (dead) string branch anyway: an empty string falls back to
`blankAiFallback` and the response is returned. -/
def chatbotPrimaryBody (env : ChatbotEnv) (owner : Option String) :
    Except PyErr ChatResp :=
  match (if tstr owner then env.profile else .ok none) with
  | .error e => .error e
  | .ok _profileData =>
    match env.search with
    | .error e => .error e
    | .ok _searchResults =>
      match env.history with
      | .error e => .error e
      | .ok hist =>
        let _sortedHist := chatbotSortHistory hist
        match chatbotGenerateCall with
        | .error e => .error e
        | .ok .coroutine => .error .attributeError
        | .ok (.str s) =>
          let ai := if pyStrip s == "" then blankAiFallback else s
          .ok { response := ai, queryTimeMs := 0 }

/-- Lines 166-221, the `except Exception` recovery: re-fetch the profile
when `owner_user_id` is truthy (its own `try` keeps `{}` on failure), start
from the canned reply, attempt `generate_ai_response(query=…)` again only
when the profile is truthy (the inner `except` keeps the canned reply when
it raises), then log; a raise out of the logging lands at line 223,
`raise HTTPException(500, …)`. -/
def chatbotRecovery (env : ChatbotEnv) (owner : Option String) :
    Except PyErr ChatResp :=
  let profileData : Option PromptProfile :=
    if tstr owner then
      match env.recoveryProfile with
      | .ok p => p
      | .error _ => none
    else none
  let ai := recoveryCanned
  let ai := if profileData.isSome then
      match chatbotGenerateCall with
      | .ok (.str s) => s
      | _ => ai
    else ai
  match env.recoveryLog with
  | .error _ => .error (.httpException 500 "Failed to process chat request")
  | .ok _ => .ok { response := ai, queryTimeMs := 0 }

/-- The whole `POST /chat` handler of routes/chatbot.py: empty-message
short-circuit (lines 37-42), then the main `try` body with the recovery
path as its `except Exception` handler — which also catches the
`HTTPException(404)` raised inside the body. -/
def chatbotChat (env : ChatbotEnv) (req : ChatReq) : Except PyErr ChatResp :=
  if pyStrip req.message == "" then .ok { response := emptyMsgResponse, queryTimeMs := 0 }
  else
    match resolveChatbot env req with
    | .inl _ => chatbotRecovery env none
    | .inr cb =>
      match chatbotPrimaryBody env cb.userId with
      | .ok resp => .ok resp
      | .error _ => chatbotRecovery env cb.userId

/-! Section: main.py, `is_valid_meeting_request` (lines 263-287) and the
`POST /chat` handler (lines 290-426) -/

/-- Helper for the substring test: is `needle` a prefix of some suffix. -/
def listContains (needle : List Char) : List Char → Bool
  | [] => needle.isEmpty
  | c :: rest => needle.isPrefixOf (c :: rest) || listContains needle rest

/-- Python `needle in hay` on strings: contiguous substring (the empty
needle is contained in everything). -/
def strContains (hay needle : String) : Bool :=
  listContains needle.toList hay.toList

/-- The meeting keywords of lines 275 and 297. -/
def meetingKeywords : List String :=
  ["meet", "meeting", "schedule", "appointment", "chat", "discuss", "call"]

/-- `is_valid_meeting_request`: no rules allows everything; otherwise the
lowercased message must contain a keyword and then some comma-separated,
stripped purpose of the lowercased rules. -/
def isValidMeetingRequest (message rules : String) : Bool :=
  if rules == "" then true
  else
    let m := pyLower message
    let r := pyLower rules
    if !(meetingKeywords.any (fun k => strContains m k)) then false
    else ((pySplitComma r).map pyStrip).any (fun p => strContains m p)

/-- Lines 307-310: the canned reply carrying the Calendly link. -/
def meetingLinkResponse (link : String) : String :=
  "I'd be happy to help you schedule a meeting! You can use my Calendly link to find a suitable time: " ++
  link ++ "\n\nPlease select a time that works best for you."

/-- Lines 313-315: the canned meeting-policy clarification. -/
def meetingPolicyResponse : String :=
  "I understand you'd like to schedule a meeting. However, based on our meeting policy, I can only schedule meetings for specific purposes. Could you please clarify the purpose of the meeting?"

/-- Lines 297-315 as a function of the lowercased user message and the
profile-lookup result: `some` is a canned return that bypasses retrieval
and generation, `none` falls through to the normal flow. -/
def meetingPrecheck (userMessage : String) (profileData : Option PromptProfile) :
    Option String :=
  if meetingKeywords.any (fun k => strContains userMessage k) then
    match profileData with
    | some p =>
      if tstr p.calendlyLink then
        if isValidMeetingRequest userMessage (p.meetingRules.getD "") then
          some (meetingLinkResponse (ostr p.calendlyLink))
        else some meetingPolicyResponse
      else none
    | none => none
  else none

/-- The fields `models.ChatRequest` declares (app/models.py lines 6-13) —
the model the route signature of main.py line 291 binds. -/
def modelChatRequestFields : List String :=
  ["message", "visitor_id", "visitor_name", "chatbot_id"]

/-- Reading an attribute of a pydantic model: a name that is not a declared
field raises `AttributeError`. -/
def pyGetAttr (fields : List String) (attr : String) : Except PyErr Unit :=
  if fields.contains attr then .ok () else .error .attributeError

/-- The environment of the main.py handler: everything after the statement
of line 294 is unreachable, so it is folded into one oracle. -/
structure MainEnv where
  normalFlow : Except PyErr String

/-- main.py `POST /chat` (lines 290-426).  The first statement of the `try`
(line 294) reads `chat_request.messages`, but the bound model
`models.ChatRequest` declares no `messages` field, so the read raises
`AttributeError`; the `except Exception` of line 424 turns any exception
into `HTTPException(500, str(e))`.  The meeting pre-check of lines 297-315
(embedded as `meetingPrecheck`) sits behind that read and never runs. -/
def mainChat (env : MainEnv) : Except PyErr String :=
  match pyGetAttr modelChatRequestFields "messages" with
  | .error _ =>
    .error (.httpException 500 "'ChatRequest' object has no attribute 'messages'")
  | .ok _ =>
    match env.normalFlow with
    | .ok s => .ok s
    | .error _ => .error (.httpException 500 "error processing chat")

/-! Section: Claim-shaped predicates and concrete inputs -/

/-- Whether an operation sequence starts with a delete (the shape the spec
ascribes to every indexing call). -/
def opsDeleteFirstB (ops : List VOp) : Bool :=
  match ops.head? with
  | some (.del _ _) => true
  | _ => false

/-- The overlap shape claimed for chunking: every pair of consecutive
chunks shares exactly 100 character positions. -/
def claimedOverlap (t : List Char) : Prop :=
  ∀ k, k + 1 < (pyChunks t).length → overlapCount t.length k = 100

/-- A concrete document for the C4 counterexample: it has an id, a
description, and short extracted text. -/
def sampleDocC4 : DocData :=
  { id := some "doc1", title := some "Persona", description := some "about a persona",
    extractedText := "hello world" }

/-- A chat request naming a chatbot id no chatbot row has. -/
def reqC3 : ChatReq :=
  { message := "Hello", visitorId := "visitor-1", chatbotId := some "no-such-chatbot" }

/-- The environment of the C3 scenario: the lookup by id finds no row, the
other collaborators answer normally. -/
def envC3 : ChatbotEnv :=
  { lookupById := .ok none, lookupDefault := .ok none, profile := .ok none,
    search := .ok [], history := .ok [], recoveryProfile := .ok none,
    recoveryLog := .ok true }

/-- A normal-path environment: the chatbot row exists and every
collaborator answers. -/
def envPrimary : ChatbotEnv :=
  { lookupById := .ok (some { id := "cb1", userId := some "owner-1" }),
    lookupDefault := .ok none,
    profile := .ok (some { name := some "Ava" }),
    search := .ok [], history := .ok [],
    recoveryProfile := .ok (some { name := some "Ava" }),
    recoveryLog := .ok true }

/-- A normal chat request carrying the chatbot id of `envPrimary`. -/
def reqPrimary : ChatReq :=
  { message := "What do you specialize in?", visitorId := "visitor-1",
    chatbotId := some "cb1" }

/-- The owner profile of the C6 scenario, with a Calendly link and meeting
rules configured. -/
def profC6 : PromptProfile :=
  { name := some "Ava", calendlyLink := some "https://calendly.com/ava",
    meetingRules := some "consulting, project discussions" }

/-- The C6 message, already lowercased as line 294 would produce it. -/
def msgC6 : String := "can we schedule a call to discuss consulting"

/-- A retrieval environment whose five query oracles all raise. -/
def envAllFail : QueryEnv :=
  { count := .ok 7, docProbe := .ok true, docQuery := .error .typeError,
    profProbe := .ok true, profQuery := .error (.runtimeError "down"),
    projProbe := .ok true, projQuery := .error .nameError,
    convProbe := .ok true, convQuery := .error (.runtimeError "down"),
    genQuery := .error (.runtimeError "down") }

/-- A document-category entry at distance 1/2. -/
def entryDocTie : RetEntry :=
  { text := "Ava specializes in distributed caching.",
    meta := { category := "document", subcategory := "content", userId := some "owner-1" },
    dist := 1/2 }

/-- A profile-category entry at the same distance 1/2. -/
def entryProfTie : RetEntry :=
  { text := "Backend engineer",
    meta := { category := "profile", subcategory := "bio", userId := some "owner-1" },
    dist := 1/2 }

/-- A retrieval environment returning one document and one profile match at
equal distance. -/
def envTie : QueryEnv :=
  { count := .ok 2, docProbe := .ok true, docQuery := .ok [entryDocTie],
    profProbe := .ok true, profQuery := .ok [entryProfTie],
    projProbe := .ok true, projQuery := .ok [],
    convProbe := .ok true, convQuery := .ok [],
    genQuery := .ok [] }

/-! Section: Theorems -/

theorem sInsert_perm {α κ : Type} [LinearOrder κ] (key : α → κ) (x : α) (l : List α) :
    List.Perm (sInsert key x l) (x :: l) := by
  induction l with
  | nil => simp [sInsert]
  | cons y ys ih =>
    by_cases h : key y < key x
    · simp only [sInsert, if_pos h]
      exact (ih.cons y).trans (List.Perm.swap x y ys)
    · simp [sInsert, if_neg h]

theorem sSort_perm {α κ : Type} [LinearOrder κ] (key : α → κ) (l : List α) :
    List.Perm (sSort key l) l := by
  induction l with
  | nil => simp [sSort]
  | cons x xs ih =>
    exact (sInsert_perm key x (sSort key xs)).trans (ih.cons x)

theorem mem_sInsert {α κ : Type} [LinearOrder κ] (key : α → κ) (x a : α) (l : List α) :
    a ∈ sInsert key x l ↔ a = x ∨ a ∈ l := by
  constructor
  · intro h
    have := (sInsert_perm key x l).mem_iff.mp h
    simpa using this
  · intro h
    exact (sInsert_perm key x l).mem_iff.mpr (by simpa using h)

theorem sInsert_sorted {α κ : Type} [LinearOrder κ] (key : α → κ) (x : α) (l : List α)
    (h : l.Pairwise (fun a b => key a ≤ key b)) :
    (sInsert key x l).Pairwise (fun a b => key a ≤ key b) := by
  induction l with
  | nil => simp [sInsert]
  | cons y ys ih =>
    rcases List.pairwise_cons.mp h with ⟨hy, hys⟩
    by_cases hlt : key y < key x
    · simp only [sInsert, if_pos hlt]
      refine List.pairwise_cons.mpr ⟨?_, ih hys⟩
      intro z hz
      rcases (mem_sInsert key x z ys).mp hz with rfl | hz
      · exact le_of_lt hlt
      · exact hy z hz
    · simp only [sInsert, if_neg hlt]
      refine List.pairwise_cons.mpr ⟨?_, h⟩
      intro z hz
      rcases List.mem_cons.mp hz with rfl | hz
      · exact le_of_not_lt hlt
      · exact le_trans (le_of_not_lt hlt) (hy z hz)

theorem sSort_sorted {α κ : Type} [LinearOrder κ] (key : α → κ) (l : List α) :
    (sSort key l).Pairwise (fun a b => key a ≤ key b) := by
  induction l with
  | nil => simp [sSort]
  | cons x xs ih => exact sInsert_sorted key x (sSort key xs) ih

theorem sInsert_filterKey_eq {α κ : Type} [LinearOrder κ] (key : α → κ) (d : κ)
    (x : α) (l : List α) (hx : key x = d) :
    filterKey key d (sInsert key x l) = x :: filterKey key d l := by
  induction l with
  | nil => simp [sInsert, filterKey, hx]
  | cons y ys ih =>
    by_cases hlt : key y < key x
    · have hy : ¬ key y = d := by
        intro hyd
        rw [hx, ← hyd] at hlt
        exact lt_irrefl (key y) hlt
      rw [sInsert, if_pos hlt]
      show filterKey key d (y :: sInsert key x ys) = x :: filterKey key d (y :: ys)
      simp only [filterKey, List.filter_cons, hy, decide_eq_true_eq, if_neg hy]
      simpa [filterKey] using ih
    · rw [sInsert, if_neg hlt]
      simp [filterKey, List.filter_cons, hx]

theorem sInsert_filterKey_ne {α κ : Type} [LinearOrder κ] (key : α → κ) (d : κ)
    (x : α) (l : List α) (hx : ¬ key x = d) :
    filterKey key d (sInsert key x l) = filterKey key d l := by
  induction l with
  | nil => simp [sInsert, filterKey, hx]
  | cons y ys ih =>
    by_cases hlt : key y < key x
    · rw [sInsert, if_pos hlt]
      show filterKey key d (y :: sInsert key x ys) = filterKey key d (y :: ys)
      by_cases hy : key y = d
      · simp only [filterKey, List.filter_cons, hy]
        simpa [filterKey] using ih
      · simp only [filterKey, List.filter_cons, decide_eq_true_eq, if_neg hy]
        simpa [filterKey] using ih
    · rw [sInsert, if_neg hlt]
      simp [filterKey, List.filter_cons, hx]

/-- Stability: the entries of any fixed key keep their input order. -/
theorem sSort_filterKey {α κ : Type} [LinearOrder κ] (key : α → κ) (d : κ) (l : List α) :
    filterKey key d (sSort key l) = filterKey key d l := by
  induction l with
  | nil => rfl
  | cons x xs ih =>
    by_cases hx : key x = d
    · rw [sSort, sInsert_filterKey_eq key d x (sSort key xs) hx]
      simp only [filterKey, List.filter_cons, decide_eq_true_eq, if_pos hx]
      simpa [filterKey] using ih
    · rw [sSort, sInsert_filterKey_ne key d x (sSort key xs) hx]
      simp only [filterKey, List.filter_cons, decide_eq_true_eq, if_neg hx]
      simpa [filterKey] using ih

/-- C2: the claim maps each LLM error type to its own fallback message and
in particular a rate-limit error to the high-demand message.  The code does
not: `except openai.APIError` stands first and both `RateLimitError` and
`APIConnectionError` derive from `APIError` in the openai v1 SDK, so both
receive the `APIError` branch's "trouble accessing the knowledge base"
message; their own branches are unreachable.  Only the final conjunct of
the claim that no exception propagates holds (every exception class is
caught and mapped to some canned text). -/
theorem c2_rate_limit_gets_apiError_message :
    generateFromLLM "Ava" (.error .rateLimitError) = .ok (kbMsg "Ava") ∧
    kbMsg "Ava" ≠ demandMsg "Ava" ∧
    generateFromLLM "Ava" (.error .apiConnectionError) = .ok (kbMsg "Ava") ∧
    connMsg "Ava" ≠ kbMsg "Ava" ∧
    generateFromLLM "Ava" (.error .authenticationError) = .ok (kbMsg "Ava") ∧
    generateFromLLM "Ava" (.error .otherError) = .ok (genericMsg "Ava") ∧
    (∀ e : ExcClass, ∃ s, generateFromLLM "Ava" (.error e) = .ok s) := by
  refine ⟨rfl, by decide, rfl, by decide, rfl, rfl, ?_⟩
  intro e
  cases e <;> exact ⟨_, rfl⟩

/-- C3: the claim says an unknown `chatbot_id` terminates the request with
a 404-class error.  The handler does raise `HTTPException(404, "Chatbot not
found")` (line 52), but its own blanket `except Exception` (line 166)
catches it and the recovery path returns HTTP 200 with the canned recovery
text instead — the 404 never reaches the client.  (The claim's other half
holds: the request is not served by another chatbot; the canned text is not
produced from any owner's data.) -/
theorem c3_unknown_chatbot_id_yields_canned_200 :
    resolveChatbot envC3 reqC3 = .inl (.httpException 404 "Chatbot not found") ∧
    chatbotChat envC3 reqC3 = .ok { response := recoveryCanned, queryTimeMs := 0 } := by
  exact ⟨rfl, rfl⟩

/-- C6: the claim says the main.py chat handler returns the canned Calendly
response for eligible meeting requests.  The handler cannot: its first
statement (line 294) reads `chat_request.messages`, and the bound request
model `models.ChatRequest` declares no such field, so every request raises
`AttributeError` and the handler answers HTTP 500; the meeting pre-check is
unreachable.  The embedded pre-check itself, given the message, would
return the Calendly canned response exactly as the claim describes. -/
theorem c6_meeting_precheck_unreachable :
    modelChatRequestFields.contains "messages" = false ∧
    pyGetAttr modelChatRequestFields "messages" = .error .attributeError ∧
    (∀ env : MainEnv,
      mainChat env =
        .error (.httpException 500 "'ChatRequest' object has no attribute 'messages'")) ∧
    isValidMeetingRequest msgC6 "consulting, project discussions" = true ∧
    meetingPrecheck msgC6 (some profC6) =
      some (meetingLinkResponse "https://calendly.com/ava") := by
  refine ⟨rfl, rfl, fun env => rfl, ?_, ?_⟩
  · set_option maxRecDepth 4000 in decide
  · set_option maxRecDepth 4000 in decide

theorem numChunks_mul_lt {L k : Nat} (h : k < numChunks L) : k * 900 < L := by
  unfold numChunks at h
  omega

theorem pyChunks_eq (t : List Char) :
    pyChunks t =
      (List.range (numChunks t.length)).map (fun k => (t.drop (k * 900)).take 1000) := by
  unfold pyChunks pyRange0
  rw [List.map_map]
  have hrange : ((t.length + 900 - 1) / 900) = numChunks t.length := by
    unfold numChunks
    omega
  rw [hrange]
  apply List.filter_eq_self.mpr
  intro c hc
  rcases List.mem_map.mp hc with ⟨k, hk, rfl⟩
  have hlt : k * 900 < t.length := numChunks_mul_lt (List.mem_range.mp hk)
  have hne : ((t.drop (k * 900)).take 1000).length ≠ 0 := by
    simp only [List.length_take, List.length_drop]
    omega
  show (!((t.drop (k * 900)).take 1000).isEmpty) = true
  cases hEmpty : ((t.drop (k * 900)).take 1000).isEmpty
  · rfl
  · exfalso
    apply hne
    rw [List.isEmpty_iff.mp hEmpty]
    rfl

theorem length_pyChunks (t : List Char) :
    (pyChunks t).length = numChunks t.length := by
  rw [pyChunks_eq]
  simp

theorem chunk_slice_length (t : List Char) (k : Nat) :
    ((t.drop (k * 900)).take 1000).length = chunkLen t.length k := by
  simp [chunkLen]

theorem chunk_coverage (t : List Char) (p : Nat) (hp : p < t.length) :
    ∃ k, k < numChunks t.length ∧ k * 900 ≤ p ∧ p < k * 900 + chunkLen t.length k := by
  refine ⟨p / 900, ?_, ?_, ?_⟩
  · unfold numChunks
    omega
  · omega
  · unfold chunkLen
    omega

theorem overlap_amended (L k : Nat) (h : k + 1 < numChunks L) :
    overlapCount L k = min 100 (chunkLen L (k + 1)) := by
  have := numChunks_mul_lt h
  unfold overlapCount chunkLen
  omega

/-- C4 counterexample: the claim says every indexing call (profile,
projects, document) first deletes the matching entries before inserting.
`add_document_to_vector_db` issues no delete at all: on a concrete document
its operation sequence is nonempty, does not start with a delete, and
contains no delete. -/
theorem c4_document_indexing_has_no_delete :
    addDocumentOps sampleDocC4 "u1" ≠ [] ∧
    opsDeleteFirstB (addDocumentOps sampleDocC4 "u1") = false ∧
    (addDocumentOps sampleDocC4 "u1").all (fun op => !op.isDel) = true := by
  refine ⟨by decide, rfl, rfl⟩

/-- C10 counterexample: the claim says consecutive chunks always overlap in
exactly 100 characters.  On a 1801-character text the chunks start at
0, 900 and 1800 with lengths 1000, 901 and 1, and the last two chunks
share exactly one character position, not 100. -/
theorem c10_overlap_not_always_100 :
    (List.replicate 1801 'a').length = 1801 ∧
    (pyChunks (List.replicate 1801 'a')).length = 3 ∧
    (pyChunks (List.replicate 1801 'a')).map List.length = [1000, 901, 1] ∧
    overlapCount 1801 1 = 1 ∧
    ¬ claimedOverlap (List.replicate 1801 'a') := by
  have ht : (List.replicate 1801 'a').length = 1801 := List.length_replicate 1801 'a'
  have hn : numChunks 1801 = 3 := by decide
  refine ⟨ht, ?_, ?_, by decide, ?_⟩
  · rw [length_pyChunks, ht, hn]
  · rw [pyChunks_eq, List.map_map, ht, hn]
    have hcong : (List.range 3).map
        (List.length ∘ fun k => ((List.replicate 1801 'a').drop (k * 900)).take 1000) =
        (List.range 3).map (fun k => chunkLen 1801 k) := by
      apply List.map_congr_left
      intro k _
      show (((List.replicate 1801 'a').drop (k * 900)).take 1000).length = chunkLen 1801 k
      rw [chunk_slice_length, ht]
    rw [hcong]
    decide
  · intro hcl
    have h2 := hcl 1 (by rw [length_pyChunks, ht, hn]; omega)
    rw [ht] at h2
    unfold overlapCount at h2
    omega

/-- C10 (amended): chunks are the slices `text[i:i+1000]` for
`i = 0, 900, 1800, …`; each chunk is at most 1000 characters; every
character position lies in some chunk; each chunk becomes its own entry
carrying `chunk_index` and `total_chunks`; text of at most 1000 characters
becomes a single unchunked entry.  But consecutive chunks overlap in
`min(100, length of the later chunk)` positions — exactly 100 only when
the later chunk has at least 100 characters (the claim's "exactly 100
always" fails when the final chunk is shorter than 100). -/
theorem c10_chunking_amended :
    (∀ t : List Char, pyChunks t =
      (List.range (numChunks t.length)).map (fun k => (t.drop (k * 900)).take 1000)) ∧
    (∀ t : List Char, ∀ c ∈ pyChunks t, c.length ≤ 1000) ∧
    (∀ t : List Char, ∀ k, ((t.drop (k * 900)).take 1000).length = chunkLen t.length k) ∧
    (∀ t : List Char, ∀ p, p < t.length →
      ∃ k, k < numChunks t.length ∧ k * 900 ≤ p ∧ p < k * 900 + chunkLen t.length k) ∧
    (∀ L k, k + 1 < numChunks L → overlapCount L k = min 100 (chunkLen L (k + 1))) ∧
    (∀ L k, k + 1 < numChunks L → 100 ≤ chunkLen L (k + 1) → overlapCount L k = 100) ∧
    (∀ docId title u txt, 1000 < String.length txt →
      ((docContentEntries docId title txt u).map (fun e => e.chunkIndex) =
        (List.range (numChunks txt.length)).map (fun k => some k) ∧
       (docContentEntries docId title txt u).map (fun e => e.totalChunks) =
        List.replicate (numChunks txt.length) (some (numChunks txt.length)) ∧
       (docContentEntries docId title txt u).map (fun e => e.text) =
        (pyChunks txt.toList).map (fun c => String.mk c))) ∧
    (∀ docId title u txt, String.length txt ≤ 1000 →
      ∃ e, docContentEntries docId title txt u = [e] ∧
        e.chunkIndex = none ∧ e.totalChunks = none ∧ e.text = txt) := by
  refine ⟨pyChunks_eq, ?_, ?_, ?_, ?_, ?_, ?_, ?_⟩
  · intro t c hc
    rw [pyChunks_eq] at hc
    rcases List.mem_map.mp hc with ⟨k, _, rfl⟩
    exact List.length_take_le 1000 _
  · intro t k
    exact chunk_slice_length t k
  · intro t p hp
    exact chunk_coverage t p hp
  · intro L k h
    exact overlap_amended L k h
  · intro L k h h100
    rw [overlap_amended L k h]
    omega
  · intro docId title u txt hlen
    have hlen2 : txt.toList.length = txt.length := rfl
    have hcs : (pyChunks txt.toList).length = numChunks txt.length := by
      rw [length_pyChunks, hlen2]
    unfold docContentEntries
    rw [if_pos hlen]
    refine ⟨?_, ?_, ?_⟩
    · rw [List.map_map]
      have : ((pyChunks txt.toList).enum.map fun ic => some ic.1) =
          ((pyChunks txt.toList).enum.map Prod.fst).map some := by
        rw [List.map_map]
        rfl
      show ((pyChunks txt.toList).enum.map fun ic => some ic.1) = _
      rw [this, List.enum_map_fst, hcs]
    · rw [List.map_map]
      show ((pyChunks txt.toList).enum.map fun _ => some (pyChunks txt.toList).length) = _
      rw [List.map_const', List.enum_length, hcs]
    · rw [List.map_map]
      have : ((pyChunks txt.toList).enum.map fun ic => String.mk ic.2) =
          ((pyChunks txt.toList).enum.map Prod.snd).map String.mk := by
        rw [List.map_map]
        rfl
      show ((pyChunks txt.toList).enum.map fun ic => String.mk ic.2) = _
      rw [this, List.enum_map_snd]
  · intro docId title u txt hlen
    unfold docContentEntries
    rw [if_neg (by omega)]
    exact ⟨_, rfl, rfl, rfl, rfl⟩

/-! Lemmas: Lemmas for C4: profile/project indexing is delete-then-insert and
idempotent on the store -/

theorem profileFieldEntry_mem {sub : String} {v : Option String} {eff : String}
    {e : VEntry} (h : e ∈ profileFieldEntry sub v eff) :
    e.category = "profile" ∧ e.userId = some eff := by
  unfold profileFieldEntry at h
  split at h
  · rcases List.mem_singleton.mp h with rfl
    exact ⟨rfl, rfl⟩
  · cases h

theorem profileEntries_mem {p : ProfileSrc} {eff : String} {e : VEntry}
    (h : e ∈ profileEntries p eff) :
    e.category = "profile" ∧ e.userId = some eff := by
  unfold profileEntries at h
  simp only [List.mem_append] at h
  rcases h with ((((((h | h) | h) | h) | h) | h) | h) <;>
    exact profileFieldEntry_mem h

theorem projectContentEntries_mem {pid pcat : String} {u : Option String}
    {txt : String} {e : VEntry} (h : e ∈ projectContentEntries pid pcat u txt) :
    e.category = "project" ∧ e.userId = u := by
  unfold projectContentEntries at h
  split at h
  · cases h
  · split at h
    · rcases List.mem_map.mp h with ⟨ic, _, rfl⟩
      exact ⟨rfl, rfl⟩
    · rcases List.mem_singleton.mp h with rfl
      exact ⟨rfl, rfl⟩

theorem projectEntries_mem {pr : ProjSrc} {u : Option String} {e : VEntry}
    (h : e ∈ projectEntries pr u) :
    e.category = "project" ∧ e.userId = u := by
  unfold projectEntries at h
  split at h
  · cases h
  · simp only [List.mem_append] at h
    rcases h with ((h | h) | h) | h
    · revert h
      split
      · intro h
        rcases List.mem_singleton.mp h with rfl
        exact ⟨rfl, rfl⟩
      · intro h
        cases h
    · revert h
      split
      · intro h
        rcases List.mem_singleton.mp h with rfl
        exact ⟨rfl, rfl⟩
      · intro h
        cases h
    · revert h
      split
      · intro h
        rcases List.mem_singleton.mp h with rfl
        exact ⟨rfl, rfl⟩
      · intro h
        cases h
    · exact projectContentEntries_mem h

theorem projectsFlat_mem {l : List ProjSrc} {u : Option String} {e : VEntry}
    (h : e ∈ (l.map (fun pr => projectEntries pr u)).flatten) :
    e.category = "project" ∧ e.userId = u := by
  rcases List.mem_flatten.mp h with ⟨es, hes, he⟩
  rcases List.mem_map.mp hes with ⟨pr, _, rfl⟩
  exact projectEntries_mem he

theorem filtDel_append (c : String) (u : Option String) (s t : List VEntry) :
    filtDel c u (s ++ t) = filtDel c u s ++ filtDel c u t := by
  simp [filtDel]

theorem filtDel_eq_nil (c : String) (u : Option String) (t : List VEntry)
    (h : ∀ e ∈ t, e.category = c ∧ e.userId = u) : filtDel c u t = [] := by
  unfold filtDel
  rw [List.filter_eq_nil_iff]
  intro e he
  rcases h e he with ⟨h1, h2⟩
  simp [h1, h2]

theorem filtDel_eq_self (c : String) (u : Option String) (t : List VEntry)
    (h : ∀ e ∈ t, e.category ≠ c) : filtDel c u t = t := by
  unfold filtDel
  rw [List.filter_eq_self]
  intro e he
  simp [h e he]

theorem filtDel_idem (c : String) (u : Option String) (s : List VEntry) :
    filtDel c u (filtDel c u s) = filtDel c u s := by
  unfold filtDel
  rw [List.filter_filter]
  congr 1
  funext e
  rw [Bool.and_self]

theorem filtDel_comm (c1 : String) (u1 : Option String) (c2 : String)
    (u2 : Option String) (s : List VEntry) :
    filtDel c1 u1 (filtDel c2 u2 s) = filtDel c2 u2 (filtDel c1 u1 s) := by
  unfold filtDel
  rw [List.filter_filter, List.filter_filter]
  congr 1
  funext e
  rw [Bool.and_comm]

theorem applyOps_append (s : List VEntry) (a b : List VOp) :
    applyOps s (a ++ b) = applyOps (applyOps s a) b := by
  simp [applyOps, List.foldl_append]

theorem applyOps_addIf (es : List VEntry) (rest : List VOp) (s : List VEntry) :
    applyOps s ((if es.isEmpty then [] else [VOp.add es]) ++ rest) =
      applyOps (s ++ es) rest := by
  by_cases h : es.isEmpty
  · rw [if_pos h, List.isEmpty_iff.mp h]
    simp
  · rw [if_neg h]
    rfl

theorem applyOps_addIfOnly (es : List VEntry) (s : List VEntry) :
    applyOps s (if es.isEmpty then [] else [VOp.add es]) = s ++ es := by
  by_cases h : es.isEmpty
  · rw [if_pos h, List.isEmpty_iff.mp h]
    simp [applyOps]
  · rw [if_neg h]
    rfl

theorem applyOps_addProjectsOps (l : List ProjSrc) (u : Option String)
    (s : List VEntry) :
    applyOps s (addProjectsOps l u) =
      if l.isEmpty then s
      else filtDel "project" u s ++ (l.map (fun pr => projectEntries pr u)).flatten := by
  unfold addProjectsOps
  by_cases h : l.isEmpty
  · rw [if_pos h, if_pos h]
    rfl
  · rw [if_neg h, if_neg h]
    show applyOps (filtDel "project" u s)
      (if ((l.map (fun pr => projectEntries pr u)).flatten).isEmpty then []
        else [VOp.add ((l.map (fun pr => projectEntries pr u)).flatten)]) = _
    rw [applyOps_addIfOnly]

theorem applyOps_addProfileOps (p : ProfileSrc) (u : Option String)
    (s : List VEntry) :
    applyOps s (addProfileOps p u) =
      (if p.projectList.isEmpty then
        filtDel "profile" (some (effUserId p u)) s ++ profileEntries p (effUserId p u)
      else
        filtDel "project" (some (effUserId p u))
            (filtDel "profile" (some (effUserId p u)) s ++
              profileEntries p (effUserId p u)) ++
          (p.projectList.map
            (fun pr => projectEntries pr (some (effUserId p u)))).flatten) := by
  unfold addProfileOps
  show applyOps (filtDel "profile" (some (effUserId p u)) s)
    ((if (profileEntries p (effUserId p u)).isEmpty then []
      else [VOp.add (profileEntries p (effUserId p u))]) ++
      addProjectsOps p.projectList (some (effUserId p u))) = _
  rw [applyOps_addIf, applyOps_addProjectsOps]

theorem addProjectsOps_idem (l : List ProjSrc) (u : Option String)
    (s : List VEntry) :
    applyOps (applyOps s (addProjectsOps l u)) (addProjectsOps l u) =
      applyOps s (addProjectsOps l u) := by
  rw [applyOps_addProjectsOps, applyOps_addProjectsOps]
  by_cases h : l.isEmpty
  · rw [if_pos h, if_pos h]
  · rw [if_neg h, if_neg h]
    rw [filtDel_append, filtDel_idem,
      filtDel_eq_nil _ _ _ (fun e he => projectsFlat_mem he), List.append_nil]

theorem addProfileOps_idem (p : ProfileSrc) (u : Option String)
    (s : List VEntry) :
    applyOps (applyOps s (addProfileOps p u)) (addProfileOps p u) =
      applyOps s (addProfileOps p u) := by
  rw [applyOps_addProfileOps, applyOps_addProfileOps]
  by_cases h : p.projectList.isEmpty
  · rw [if_pos h, if_pos h]
    rw [filtDel_append, filtDel_idem,
      filtDel_eq_nil _ _ _ (fun e he => profileEntries_mem he), List.append_nil]
  · rw [if_neg h, if_neg h]
    have hP : ∀ e ∈ profileEntries p (effUserId p u),
        e.category = "profile" ∧ e.userId = some (effUserId p u) :=
      fun e he => profileEntries_mem he
    have hJ : ∀ e ∈ (p.projectList.map
        (fun pr => projectEntries pr (some (effUserId p u)))).flatten,
        e.category = "project" ∧ e.userId = some (effUserId p u) :=
      fun e he => projectsFlat_mem he
    have hPne : ∀ e ∈ profileEntries p (effUserId p u), e.category ≠ "project" := by
      intro e he
      rw [(hP e he).1]
      decide
    have hJne : ∀ e ∈ (p.projectList.map
        (fun pr => projectEntries pr (some (effUserId p u)))).flatten,
        e.category ≠ "profile" := by
      intro e he
      rw [(hJ e he).1]
      decide
    have hFpJ : filtDel "profile" (some (effUserId p u))
        ((p.projectList.map
          (fun pr => projectEntries pr (some (effUserId p u)))).flatten) =
        (p.projectList.map
          (fun pr => projectEntries pr (some (effUserId p u)))).flatten :=
      filtDel_eq_self _ _ _ hJne
    have hFjP : filtDel "project" (some (effUserId p u))
        (profileEntries p (effUserId p u)) = profileEntries p (effUserId p u) :=
      filtDel_eq_self _ _ _ hPne
    have hFpP : filtDel "profile" (some (effUserId p u))
        (profileEntries p (effUserId p u)) = [] :=
      filtDel_eq_nil _ _ _ hP
    have hFjJ : filtDel "project" (some (effUserId p u))
        ((p.projectList.map
          (fun pr => projectEntries pr (some (effUserId p u)))).flatten) = [] :=
      filtDel_eq_nil _ _ _ hJ
    have hcomm : ∀ X, filtDel "profile" (some (effUserId p u))
        (filtDel "project" (some (effUserId p u)) X) =
        filtDel "project" (some (effUserId p u))
          (filtDel "profile" (some (effUserId p u)) X) :=
      fun X => filtDel_comm _ _ _ _ X
    simp only [filtDel_append, filtDel_idem, hFpJ, hFjP, hFpP, hFjJ, hcomm,
      List.append_nil, List.append_assoc, List.nil_append]

/-- C4 (amended): profile indexing and (nonempty) project indexing first
delete every entry matching `{category, owner_id}` and then insert, so
re-indexing the same profile or project list is idempotent on the vector
store (same entry ids, no growth).  Document indexing, however, performs NO
delete at all — neither by category and owner nor by `document_id`; it only
inserts (its entry ids are deterministic in the document id and owner, but
nothing removes prior entries). -/
theorem c4_reindex_semantics :
    (∀ (p : ProfileSrc) (u : Option String),
      (addProfileOps p u).head? = some (VOp.del "profile" (some (effUserId p u)))) ∧
    (∀ (l : List ProjSrc) (u : Option String), l ≠ [] →
      (addProjectsOps l u).head? = some (VOp.del "project" u)) ∧
    (∀ (d : DocData) (u : String),
      (addDocumentOps d u).all (fun op => !op.isDel) = true) ∧
    (∀ (p : ProfileSrc) (u : Option String) (s : List VEntry),
      applyOps (applyOps s (addProfileOps p u)) (addProfileOps p u) =
        applyOps s (addProfileOps p u)) ∧
    (∀ (l : List ProjSrc) (u : Option String) (s : List VEntry),
      applyOps (applyOps s (addProjectsOps l u)) (addProjectsOps l u) =
        applyOps s (addProjectsOps l u)) := by
  refine ⟨fun p u => rfl, ?_, ?_, addProfileOps_idem, addProjectsOps_idem⟩
  · intro l u hl
    cases l with
    | nil => exact absurd rfl hl
    | cons pr rest => rfl
  · intro d u
    unfold addDocumentOps
    split <;> first
      | rfl
      | (split <;> rfl)

/-! Lemmas: Lemmas for C5 and C7: the retrieval merge -/

theorem scopedBlock_qerr (pb : Except PyErr Bool) (e : PyErr) :
    scopedBlock pb (.error e) = [] := by
  unfold scopedBlock
  cases pb with
  | error _ => rfl
  | ok b => cases b <;> rfl

theorem scopedBlock_err_eq_nil_query (pb : Except PyErr Bool) (e : PyErr) :
    scopedBlock pb (.error e) = scopedBlock pb (.ok []) := by
  unfold scopedBlock
  cases pb with
  | error _ => rfl
  | ok b => cases b <;> rfl

theorem convBlockRun_qerr (pb : Except PyErr Bool) (e : PyErr) :
    convBlockRun pb (.error e) = [] := by
  unfold convBlockRun
  cases pb with
  | error _ => rfl
  | ok b => rfl

theorem convBlockRun_err_eq_nil_query (pb : Except PyErr Bool) (e : PyErr) :
    convBlockRun pb (.error e) = convBlockRun pb (.ok []) := by
  unfold convBlockRun
  cases pb with
  | error _ => rfl
  | ok b => rfl

/-- C5: `query_vector_db` never raises: every call returns a result
structure; an empty collection returns the empty structure; if all five
similarity queries raise, the call still returns the empty structure; and a
raising category query is indistinguishable from one returning no results
for that category. -/
theorem c5_query_vector_db_never_raises :
    (∀ (env : QueryEnv) (u v : Option String) (ic : Bool),
      ∃ r, queryVectorDb env u v ic = .ok r) ∧
    (∀ (env : QueryEnv) (u v : Option String) (ic : Bool),
      env.count = .ok 0 → queryVectorDb env u v ic = .ok []) ∧
    (∀ (env : QueryEnv) (u v : Option String) (ic : Bool)
      (e1 e2 e3 e4 e5 : PyErr),
      env.docQuery = .error e1 → env.profQuery = .error e2 →
      env.projQuery = .error e3 → env.convQuery = .error e4 →
      env.genQuery = .error e5 →
      queryVectorDb env u v ic = .ok []) ∧
    (∀ (env : QueryEnv) (u v : Option String) (ic : Bool) (e : PyErr),
      env.docQuery = .error e →
      queryVectorDb env u v ic = queryVectorDb { env with docQuery := .ok [] } u v ic) ∧
    (∀ (env : QueryEnv) (u v : Option String) (ic : Bool) (e : PyErr),
      env.profQuery = .error e →
      queryVectorDb env u v ic = queryVectorDb { env with profQuery := .ok [] } u v ic) ∧
    (∀ (env : QueryEnv) (u v : Option String) (ic : Bool) (e : PyErr),
      env.projQuery = .error e →
      queryVectorDb env u v ic = queryVectorDb { env with projQuery := .ok [] } u v ic) ∧
    (∀ (env : QueryEnv) (u v : Option String) (ic : Bool) (e : PyErr),
      env.convQuery = .error e →
      queryVectorDb env u v ic = queryVectorDb { env with convQuery := .ok [] } u v ic) := by
  refine ⟨?_, ?_, ?_, ?_, ?_, ?_, ?_⟩
  · intro env u v ic
    cases h : queryVectorDbBody env u v ic with
    | ok r => exact ⟨r, by simp [queryVectorDb, h]⟩
    | error e => exact ⟨[], by simp [queryVectorDb, h]⟩
  · intro env u v ic h
    unfold queryVectorDb queryVectorDbBody
    rw [h]
    rfl
  · intro env u v ic e1 e2 e3 e4 e5 h1 h2 h3 h4 h5
    unfold queryVectorDb queryVectorDbBody mergedResults generalBlock
    rw [h1, h2, h3, h4, h5]
    simp only [scopedBlock_qerr, convBlockRun_qerr, ite_self, List.append_nil]
    cases env.count with
    | error e => rfl
    | ok n =>
      by_cases hn : n = 0
      · simp [hn]
      · simp [hn]
  · intro env u v ic e h
    unfold queryVectorDb queryVectorDbBody mergedResults
    rw [h, scopedBlock_err_eq_nil_query]
  · intro env u v ic e h
    unfold queryVectorDb queryVectorDbBody mergedResults
    rw [h, scopedBlock_err_eq_nil_query]
  · intro env u v ic e h
    unfold queryVectorDb queryVectorDbBody mergedResults
    rw [h, scopedBlock_err_eq_nil_query]
  · intro env u v ic e h
    unfold queryVectorDb queryVectorDbBody mergedResults
    rw [h, convBlockRun_err_eq_nil_query]

/-- C7: with every category query answering, the result is the stable
ascending-by-distance sort of the merged list in the code's merge order
document, profile, project, conversation; stability is witnessed by
`filterKey` preservation, and on the concrete equal-distance pair the
document entry precedes the profile entry. -/
theorem c7_merge_sorted_stable :
    (∀ (env : QueryEnv) (uid vid : String) (n : Nat) (d p j c : List RetEntry),
      env.count = .ok n → n ≠ 0 →
      env.docProbe = .ok true → env.docQuery = .ok d →
      env.profProbe = .ok true → env.profQuery = .ok p →
      env.projProbe = .ok true → env.projQuery = .ok j →
      env.convProbe = .ok true → env.convQuery = .ok c →
      d ++ p ++ j ++ c ≠ [] →
      queryVectorDb env (some uid) (some vid) true =
        .ok (sSort distKey (d ++ p ++ j ++ c))) ∧
    (∀ l : List RetEntry, (sSort distKey l).Pairwise (fun a b => a.dist ≤ b.dist)) ∧
    (∀ (l : List RetEntry) (q : ℚ),
      filterKey distKey q (sSort distKey l) = filterKey distKey q l) ∧
    (∀ l : List RetEntry, List.Perm (sSort distKey l) l) ∧
    entryDocTie.dist = entryProfTie.dist ∧
    sSort distKey [entryDocTie, entryProfTie] = [entryDocTie, entryProfTie] ∧
    queryVectorDb envTie (some "owner-1") (some "visitor-1") true =
      .ok [entryDocTie, entryProfTie] := by
  have hlt : ¬ (distKey entryProfTie < distKey entryDocTie) := by
    show ¬ ((1 : ℚ)/2 < (1 : ℚ)/2)
    exact lt_irrefl _
  have hsort : sSort distKey [entryDocTie, entryProfTie] = [entryDocTie, entryProfTie] := by
    show sInsert distKey entryDocTie (sInsert distKey entryProfTie []) = _
    rw [show sInsert distKey entryProfTie [] = [entryProfTie] from rfl]
    unfold sInsert
    rw [if_neg hlt]
  refine ⟨?_, ?_, ?_, ?_, rfl, hsort, ?_⟩
  · intro env uid vid n d p j c hc hn hdp hdq hpp hpq hjp hjq hcp hcq hne
    unfold queryVectorDb queryVectorDbBody mergedResults
    rw [hc, hdp, hdq, hpp, hpq, hjp, hjq, hcp, hcq]
    have hne2 : ¬(d = [] ∧ p = [] ∧ j = [] ∧ c = []) := by
      rintro ⟨rfl, rfl, rfl, rfl⟩
      exact hne rfl
    simp only [scopedBlock, convBlockRun, Option.isSome_some, if_pos, Bool.and_self,
      if_true, Bool.true_and]
    rw [if_neg hn]
    simp [hne2, hne]
  · intro l
    exact sSort_sorted distKey l
  · intro l q
    exact sSort_filterKey distKey q l
  · intro l
    exact sSort_perm distKey l
  · have hbody : queryVectorDbBody envTie (some "owner-1") (some "visitor-1") true =
        .ok (sSort distKey [entryDocTie, entryProfTie]) := rfl
    unfold queryVectorDb
    rw [hbody, hsort]

/-! Lemmas: Lemmas for C8: the grouping loop of `generate_ai_response` -/

theorem collect_buckets (rs : List RetEntry) (acc : CtxSections) :
    (rs.foldl ctxPush acc).document =
      acc.document ++ (rs.filter (fun e => e.meta.category == "document")).map
        (fun e => fmtCtxEntry e.text e.meta) ∧
    (rs.foldl ctxPush acc).project =
      acc.project ++ (rs.filter (fun e => e.meta.category == "project")).map
        (fun e => fmtCtxEntry e.text e.meta) ∧
    (rs.foldl ctxPush acc).conversation =
      acc.conversation ++ (rs.filter (fun e => e.meta.category == "conversation")).map
        (fun e => fmtCtxEntry e.text e.meta) ∧
    (rs.foldl ctxPush acc).profile =
      acc.profile ++ (rs.filter (fun e => !(e.meta.category == "document") &&
          (!(e.meta.category == "project") && !(e.meta.category == "conversation")))).map
        (fun e => fmtCtxEntry e.text e.meta) := by
  induction rs generalizing acc with
  | nil => simp
  | cons e rs ih =>
    simp only [List.foldl_cons, List.filter_cons]
    by_cases h1 : e.meta.category = "document"
    · have hpush : ctxPush acc e =
          { acc with document := acc.document ++ [fmtCtxEntry e.text e.meta] } := by
        unfold ctxPush
        rw [if_pos (by simp [h1])]
      rcases ih (ctxPush acc e) with ⟨ihd, ihp, ihc, ihf⟩
      exact ⟨by rw [ihd]; simp [hpush, h1], by rw [ihp]; simp [hpush, h1],
        by rw [ihc]; simp [hpush, h1], by rw [ihf]; simp [hpush, h1]⟩
    · by_cases h2 : e.meta.category = "project"
      · have hpush : ctxPush acc e =
            { acc with project := acc.project ++ [fmtCtxEntry e.text e.meta] } := by
          unfold ctxPush
          rw [if_neg (by simp [h2]), if_pos (by simp [h2])]
        rcases ih (ctxPush acc e) with ⟨ihd, ihp, ihc, ihf⟩
        exact ⟨by rw [ihd]; simp [hpush, h2], by rw [ihp]; simp [hpush, h2],
          by rw [ihc]; simp [hpush, h2], by rw [ihf]; simp [hpush, h2]⟩
      · by_cases h3 : e.meta.category = "conversation"
        · have hpush : ctxPush acc e =
              { acc with conversation :=
                acc.conversation ++ [fmtCtxEntry e.text e.meta] } := by
            unfold ctxPush
            rw [if_neg (by simp [h3]), if_neg (by simp [h3]),
              if_neg (by simp [h3]), if_pos (by simp [h3])]
          rcases ih (ctxPush acc e) with ⟨ihd, ihp, ihc, ihf⟩
          exact ⟨by rw [ihd]; simp [hpush, h3], by rw [ihp]; simp [hpush, h3],
            by rw [ihc]; simp [hpush, h3], by rw [ihf]; simp [hpush, h3]⟩
        · have hpush : ctxPush acc e =
              { acc with profile := acc.profile ++ [fmtCtxEntry e.text e.meta] } := by
            unfold ctxPush
            by_cases hprof : e.meta.category = "profile"
            · rw [if_neg (by simp [hprof]), if_neg (by simp [hprof]),
                if_pos (by simp [hprof])]
            · rw [if_neg (by simp [h1]), if_neg (by simp [h2]),
                if_neg (by simp [hprof]), if_neg (by simp [h3])]
          rcases ih (ctxPush acc e) with ⟨ihd, ihp, ihc, ihf⟩
          exact ⟨by rw [ihd]; simp [hpush, h1], by rw [ihp]; simp [hpush, h2],
            by rw [ihc]; simp [hpush, h3], by rw [ihf]; simp [hpush, h1, h2, h3]⟩

/-- C8: the assembled context keeps at most 5 document entries, 3 project
entries, 3 profile entries and 2 conversation entries — the earliest of
each category (a `take` of the grouped list, so entries beyond the cap are
dropped from the back) — and renders the non-empty sections in the fixed
order Knowledge Base Information, Project Information, Relevant Previous
Conversations, Additional Profile Information, each section only when it
has entries.  (Entries of a category outside the four named ones land in
the profile bucket, per lines 826-829.) -/
theorem c8_caps_and_section_order :
    (∀ rs : List RetEntry,
      (limitSections (collectSections rs)).document =
        ((rs.filter (fun e => e.meta.category == "document")).map
          (fun e => fmtCtxEntry e.text e.meta)).take 5 ∧
      (limitSections (collectSections rs)).project =
        ((rs.filter (fun e => e.meta.category == "project")).map
          (fun e => fmtCtxEntry e.text e.meta)).take 3 ∧
      (limitSections (collectSections rs)).conversation =
        ((rs.filter (fun e => e.meta.category == "conversation")).map
          (fun e => fmtCtxEntry e.text e.meta)).take 2 ∧
      (limitSections (collectSections rs)).profile =
        ((rs.filter (fun e => !(e.meta.category == "document") &&
            (!(e.meta.category == "project") &&
              !(e.meta.category == "conversation")))).map
          (fun e => fmtCtxEntry e.text e.meta)).take 3) ∧
    (∀ rs : List RetEntry,
      (limitSections (collectSections rs)).document.length ≤ 5 ∧
      (limitSections (collectSections rs)).project.length ≤ 3 ∧
      (limitSections (collectSections rs)).profile.length ≤ 3 ∧
      (limitSections (collectSections rs)).conversation.length ≤ 2) ∧
    (∀ s : CtxSections, contextText s =
      sectionText "Knowledge Base Information" s.document ++
      sectionText "Project Information" s.project ++
      sectionText "Relevant Previous Conversations" s.conversation ++
      sectionText "Additional Profile Information" s.profile) ∧
    (∀ hdr : String, sectionText hdr [] = "") ∧
    (∀ (hdr : String) (es : List String), es ≠ [] →
      sectionText hdr es =
        "\n" ++ hdr ++ ":\n" ++ String.join (es.map (fun e => "- " ++ e ++ "\n"))) := by
  refine ⟨?_, ?_, fun s => rfl, fun hdr => rfl, ?_⟩
  · intro rs
    rcases collect_buckets rs {} with ⟨ihd, ihp, ihc, ihf⟩
    unfold collectSections limitSections
    rw [ihd, ihp, ihc, ihf]
    exact ⟨rfl, rfl, rfl, rfl⟩
  · intro rs
    unfold limitSections
    exact ⟨List.length_take_le 5 _, List.length_take_le 3 _,
      List.length_take_le 3 _, List.length_take_le 2 _⟩
  · intro hdr es h
    unfold sectionText
    rw [if_neg ?_]
    intro hE
    exact h (List.isEmpty_iff.mp hE)

/-! Lemmas: Lemmas for C9: the history re-sort -/

theorem chatbotSortHistory_desc3 (h1 h2 h3 : HistItem)
    (hab : histKey h1 < histKey h2) (hbc : histKey h2 < histKey h3) :
    chatbotSortHistory [h3, h2, h1] = [h1, h2, h3] := by
  show sInsert histKey h3 (sInsert histKey h2 (sInsert histKey h1 [])) = [h1, h2, h3]
  have e1 : sInsert histKey h2 [h1] = [h1, h2] := by
    unfold sInsert
    rw [if_pos hab]
    rfl
  have e2 : sInsert histKey h3 [h1, h2] = [h1, h2, h3] := by
    unfold sInsert
    rw [if_pos (lt_trans hab hbc)]
    unfold sInsert
    rw [if_pos hbc]
    rfl
  rw [show sInsert histKey h1 ([] : List HistItem) = [h1] from rfl, e1, e2]

/-- C9: the handler re-sorts the store's descending history ascending by
timestamp before prompt assembly, so exchanges with keys t1 < t2 < t3 are
rendered in the prompt in the order t1, t2, t3; the sorted history is
always ascending and a permutation of the input; and an empty history makes
the system prompt end with the explicit marker "No previous conversation"
rather than omitting the section. -/
theorem c9_history_order_and_empty_marker :
    (∀ h1 h2 h3 : HistItem, histKey h1 < histKey h2 → histKey h2 < histKey h3 →
      chatbotSortHistory [h3, h2, h1] = [h1, h2, h3]) ∧
    (∀ l : List HistItem,
      (chatbotSortHistory l).Pairwise (fun a b => histKey a ≤ histKey b)) ∧
    (∀ l : List HistItem, List.Perm (chatbotSortHistory l) l) ∧
    (∀ h1 h2 h3 : HistItem, histKey h1 < histKey h2 → histKey h2 < histKey h3 →
      formatConversationHistory (chatbotSortHistory [h3, h2, h1]) =
        formatConversationHistory [h1, h2, h3]) ∧
    formatConversationHistory [] = "No previous conversation" ∧
    (∀ (p : PromptProfile) (ctx : String) (hasDoc : Bool),
      ∃ pre, systemPrompt p ctx hasDoc [] = pre ++ "No previous conversation") := by
  refine ⟨chatbotSortHistory_desc3, ?_, ?_, ?_, rfl, ?_⟩
  · intro l
    unfold chatbotSortHistory
    split
    · exact List.Pairwise.nil
    · exact sSort_sorted histKey l
  · intro l
    unfold chatbotSortHistory
    split
    · next h => simp [List.isEmpty_iff.mp h]
    · exact sSort_perm histKey l
  · intro h1 h2 h3 hab hbc
    rw [chatbotSortHistory_desc3 h1 h2 h3 hab hbc]
  · intro p ctx hasDoc
    exact ⟨_, rfl⟩

/-! Lemmas: Lemmas for C1 and C3: the routes/chatbot.py handler -/

theorem chatbotGenerateCall_typeError : chatbotGenerateCall = .error .typeError := rfl

theorem chatbotPrimaryBody_no_ok (env : ChatbotEnv) (owner : Option String)
    (r : ChatResp) : chatbotPrimaryBody env owner ≠ .ok r := by
  intro h
  unfold chatbotPrimaryBody at h
  split at h
  · exact Except.noConfusion h
  · split at h
    · exact Except.noConfusion h
    · split at h
      · exact Except.noConfusion h
      · exact Except.noConfusion h

theorem chatbotRecovery_cases (env : ChatbotEnv) (owner : Option String) :
    chatbotRecovery env owner = .ok { response := recoveryCanned, queryTimeMs := 0 } ∨
    chatbotRecovery env owner =
      .error (.httpException 500 "Failed to process chat request") := by
  unfold chatbotRecovery
  cases hlog : env.recoveryLog with
  | error e =>
    right
    rfl
  | ok b =>
    left
    cases howner : tstr owner
    · rfl
    · cases hrp : env.recoveryProfile with
      | error e2 => rfl
      | ok pd =>
        cases pd with
        | none => rfl
        | some prof => rfl

/-- C1: neither chat handler can ever obtain an LLM completion from
`generate_ai_response`.  The routes/chatbot.py call passes `query=`, which
is not among the function's parameters, so the call raises `TypeError` in
the primary path and in the recovery branch alike; the main.py call passes
valid keywords but no `await`, so it yields a coroutine object whose
slicing at line 396 raises `TypeError`.  Consequently every response the
routes/chatbot.py handler returns is one of its two canned strings, and its
only error outcome is the final HTTP 500. -/
theorem c1_no_llm_completion :
    generateAiResponseParams.contains "query" = false ∧
    chatbotGenerateCall = .error .typeError ∧
    mainGenerateCall = .ok .coroutine ∧
    mainGenerationStep = .error .typeError ∧
    (∀ (env : ChatbotEnv) (req : ChatReq) (r : ChatResp),
      chatbotChat env req = .ok r →
      r.response = emptyMsgResponse ∨ r.response = recoveryCanned) ∧
    (∀ (env : ChatbotEnv) (req : ChatReq) (e : PyErr),
      chatbotChat env req = .error e →
      e = .httpException 500 "Failed to process chat request") := by
  refine ⟨rfl, rfl, rfl, rfl, ?_, ?_⟩
  · intro env req r h
    unfold chatbotChat at h
    split at h
    · cases h
      left
      rfl
    · split at h
      · rcases chatbotRecovery_cases env none with hr | hr <;> rw [hr] at h
        · cases h
          right
          rfl
        · exact Except.noConfusion h
      · rename_i cb hres
        split at h
        · rename_i resp heq
          exact absurd heq (chatbotPrimaryBody_no_ok env cb.userId resp)
        · rcases chatbotRecovery_cases env cb.userId with hr | hr <;> rw [hr] at h
          · cases h
            right
            rfl
          · exact Except.noConfusion h
  · intro env req e h
    unfold chatbotChat at h
    split at h
    · exact Except.noConfusion h
    · split at h
      · rcases chatbotRecovery_cases env none with hr | hr <;> rw [hr] at h
        · exact Except.noConfusion h
        · cases h
          rfl
      · rename_i cb hres
        split at h
        · rename_i resp heq
          exact absurd heq (chatbotPrimaryBody_no_ok env cb.userId resp)
        · rcases chatbotRecovery_cases env cb.userId with hr | hr <;> rw [hr] at h
          · exact Except.noConfusion h
          · cases h
            rfl

/-- Concrete evaluation: with every similarity query raising, the retrieval
returns the empty result structure (the scenario of the C5 conjuncts at a
specific environment). -/
theorem envAllFail_returns_empty :
    queryVectorDb envAllFail (some "owner-1") (some "visitor-1") true = .ok [] := rfl

/-- Concrete evaluation: on the normal path (chatbot row found, all
collaborators answering) the handler still ends in the recovery canned
reply, because the generation call raises `TypeError`. -/
theorem envPrimary_returns_recovery_canned :
    chatbotChat envPrimary reqPrimary =
      .ok { response := recoveryCanned, queryTimeMs := 0 } := rfl

end AgentCyril
